import Mathlib

/-!
# Verification of the Tormach pendant firmware (`src/teensy/Pendant/Pendant.ino`)

A shallow embedding of the pendant firmware's pure control logic:

* the indicator manager (`set_indicator`, `init_indicator`) together with an
  explicit model of the timer service's set of live handles;
* the RFID frame decoder state machine (`rfid_poll` processes one byte from
  the reader's serial line, `rfid_run` folds it over a byte sequence and
  collects the bytes re-emitted on the host-facing line);
* the host link protocol handler (`rawhid_poll`), modelled as a pure function
  from the persistent static state, the received packet, the encoder reading
  and the transport's send return value to the list of indicator commands,
  scheduled alerts, encoder write-backs, and the outbound packet.

Machine integers: `rfid_byte_count` and packet bytes are modelled as `Nat`
(reachable values stay far below 256, writes come from byte-valued reads);
the 32-bit unsigned `packetCount` wraps modulo `2 ^ 32`; the signed encoder
reading is an `Int`.  The C expression `~active_level` (bitwise NOT of the
promoted `bool`) is modelled two's-complement-faithfully by `cnot`.
-/

namespace Pendant

/-! ## Indicator manager -/

/-- Indicator modes, mirroring `enum indicator_INDICATOR_t`:
`0 = INDICATOR_OFF`, `1 = INDICATOR_ON`, `2 = INDICATOR_BLINK`,
`3 = INDICATOR_PULSE`. -/
def INDICATOR_OFF : Nat := 0

def INDICATOR_ON : Nat := 1

def INDICATOR_BLINK : Nat := 2

def INDICATOR_PULSE : Nat := 3

/-- `struct s_indicator`: per-indicator registry entry. `event_id = -1`
means no timer handle is recorded. -/
structure SIndicator where
  event_id : Int
  io_pin : Nat
  active_level : Bool
  state : Nat
deriving DecidableEq

/-- Side effects issued by the indicator manager: timer cancellation
(`t.stop`), pin drives (`digitalWrite`), and timer registrations
(`t.oscillate` / `t.pulseImmediate`, which return the fresh handle). -/
inductive TEffect where
  | tstop (h : Int)
  | dwrite (pin : Nat) (value : Int)
  | oscillate (h : Int) (pin : Nat) (period : Nat)
  | pulseImmediate (h : Int) (pin : Nat) (period : Nat)
deriving DecidableEq

/-- The integer value of a C `bool` used as an output level. -/
def levelOf (b : Bool) : Int := if b then 1 else 0

/-- The C expression `~active_level`: bitwise NOT of the promoted `bool`,
so `~0 = -1` and `~1 = -2` (two's complement). -/
def cnot (b : Bool) : Int := -1 - levelOf b

/-- `init_indicator(idx, io_pin, active_level)`: the registry entry it
stores plus the initial inactive pin drive. -/
def init_indicator (io_pin : Nat) (active_level : Bool) :
    SIndicator × List TEffect :=
  (⟨-1, io_pin, active_level, INDICATOR_OFF⟩,
    [TEffect.dwrite io_pin (cnot active_level)])

/-- `set_indicator(idx, state, period)` acting on one registry entry.
`nextH` is the timer service's next free handle (the Timer library returns
a fresh nonnegative event id on registration).  Returns the updated entry,
the updated fresh-handle counter, and the effects in program order. -/
def set_indicator (i : SIndicator) (nextH : Nat) (st : Nat) (period : Nat) :
    SIndicator × Nat × List TEffect :=
  match st with
  | 0 =>
    if i.state ≠ INDICATOR_OFF then
      let stopEffs : List TEffect :=
        if i.event_id ≠ -1 then [TEffect.tstop i.event_id] else []
      (⟨-1, i.io_pin, i.active_level, INDICATOR_OFF⟩, nextH,
        stopEffs ++ [TEffect.dwrite i.io_pin (cnot i.active_level)])
    else (i, nextH, [])
  | 1 =>
    if i.state ≠ INDICATOR_ON then
      let stopEffs : List TEffect :=
        if i.event_id ≠ -1 then [TEffect.tstop i.event_id] else []
      (⟨-1, i.io_pin, i.active_level, INDICATOR_ON⟩, nextH,
        stopEffs ++ [TEffect.dwrite i.io_pin (levelOf i.active_level)])
    else (i, nextH, [])
  | 2 =>
    if i.state ≠ INDICATOR_BLINK ∧ i.event_id = -1 then
      (⟨(nextH : Int), i.io_pin, i.active_level, INDICATOR_BLINK⟩, nextH + 1,
        [TEffect.oscillate ((nextH : Int)) i.io_pin period])
    else (i, nextH, [])
  | 3 =>
    if i.event_id = -1 then
      (⟨(nextH : Int), i.io_pin, i.active_level, INDICATOR_PULSE⟩, nextH + 1,
        [TEffect.pulseImmediate ((nextH : Int)) i.io_pin period])
    else (i, nextH, [])
  | _ => (i, nextH, [])

/-- Is an effect a timer registration (`oscillate` or `pulseImmediate`)? -/
def isReg : TEffect → Bool
  | TEffect.oscillate _ _ _ => true
  | TEffect.pulseImmediate _ _ _ => true
  | _ => false

/-- Is an effect a pin drive (`digitalWrite`)? -/
def isWrite : TEffect → Bool
  | TEffect.dwrite _ _ => true
  | _ => false

/-- Timer service model: the list of live (outstanding) handles.  `tstop`
removes a handle, registrations add the returned handle. -/
def applyT (live : List Int) (e : TEffect) : List Int :=
  match e with
  | TEffect.tstop h => live.erase h
  | TEffect.dwrite _ _ => live
  | TEffect.oscillate h _ _ => h :: live
  | TEffect.pulseImmediate h _ _ => h :: live

def runT (live : List Int) (effs : List TEffect) : List Int :=
  effs.foldl applyT live

/-- One indicator together with the timer-service view of its handles and
the service's fresh-handle counter. -/
structure IndSys where
  ind : SIndicator
  nextH : Nat
  live : List Int

/-- The system right after `init_indicator` ran for this indicator. -/
def sysInit (pin : Nat) (al : Bool) : IndSys :=
  ⟨(init_indicator pin al).1, 0, []⟩

/-- One `set_indicator` call, with its effects applied to the timer
service. -/
def sysSet (s : IndSys) (m p : Nat) : IndSys :=
  let r := set_indicator s.ind s.nextH m p
  ⟨r.1, r.2.1, runT s.live r.2.2⟩

/-- A sequence of `set_indicator` calls. -/
def sysRun (s : IndSys) (calls : List (Nat × Nat)) : IndSys :=
  calls.foldl (fun s c => sysSet s c.1 c.2) s

/-- A concrete freshly initialized indicator (pin 0, active low), used in
concrete counterexamples. -/
def indInit : SIndicator := ⟨-1, 0, false, INDICATOR_OFF⟩

/-! ## RFID frame decoder -/

/-- Decoder phases, mirroring the `RFID_STATE_*` defines:
`0 = WAIT_STX`, `1 = GET_BYTES`, `2 = GET_CKSUM`, `3 = WAIT_ETX`. -/
def RFID_STATE_WAIT_STX : Nat := 0

def RFID_STATE_GET_BYTES : Nat := 1

def RFID_STATE_GET_CKSUM : Nat := 2

def RFID_STATE_WAIT_ETX : Nat := 3

/-- The decoder's static locals: phase, `rfid_byte_count`, the 10-byte
payload array and the 2-byte checksum array. -/
structure RfidSt where
  phase : Nat
  cnt : Nat
  buf : List Nat
  ck : List Nat
deriving DecidableEq

/-- The body of `rfid_poll` for one byte read from the reader's serial
line (`Serial2`).  Returns the new decoder state and the bytes printed on
the host-facing line (`Serial`). -/
def rfid_poll (s : RfidSt) (b : Nat) : RfidSt × List Nat :=
  match s.phase with
  | 0 =>
    if b = 0x02 then ({ s with phase := RFID_STATE_GET_BYTES, cnt := 10 }, [])
    else (s, [])
  | 1 =>
    let buf := s.buf.set (10 - s.cnt) b
    let c := s.cnt - 1
    if c = 0 then
      ({ s with phase := RFID_STATE_GET_CKSUM, cnt := 2, buf := buf }, [])
    else ({ s with cnt := c, buf := buf }, [])
  | 2 =>
    let ck := s.ck.set (2 - s.cnt) b
    let c := s.cnt - 1
    if c = 0 then ({ s with phase := RFID_STATE_WAIT_ETX, cnt := 0, ck := ck }, [])
    else ({ s with cnt := c, ck := ck }, [])
  | 3 =>
    if b = 0x03 then
      ({ s with phase := RFID_STATE_WAIT_STX }, 0x02 :: s.buf ++ [0x03])
    else ({ s with phase := RFID_STATE_WAIT_STX }, [])
  | _ => (s, [])

/-- Fold the decoder over a byte sequence, collecting emitted output. -/
def rfid_run (s : RfidSt) (l : List Nat) : RfidSt × List Nat :=
  match l with
  | [] => (s, [])
  | b :: rest =>
    let r1 := rfid_poll s b
    let r2 := rfid_run r1.1 rest
    (r2.1, r1.2 ++ r2.2)

/-- The decoder's state at boot: C static byte arrays are zero initialized
and the phase starts at `WAIT_STX`. -/
def rfidInit : RfidSt :=
  ⟨RFID_STATE_WAIT_STX, 0, List.replicate 10 0, List.replicate 2 0⟩

/-! ## Host link protocol handler (`rawhid_poll`) -/

/-- Indicator registry ids, mirroring `enum indicator_t`. -/
def ALERT_BEEPER : Nat := 0

def INDICATOR_BEACON_GREEN : Nat := 1

def INDICATOR_BEACON_AMBER : Nat := 2

def INDICATOR_BEACON_RED : Nat := 3

def INDICATOR_LED_START : Nat := 4

def INDICATOR_LED_FEED : Nat := 5

def INDICATOR_LED_M1 : Nat := 6

def INDICATOR_LED_RFID : Nat := 7

/-- A recorded `set_indicator(ind, mode, period)` call. -/
structure IndCmd where
  ind : Nat
  mode : Nat
  period : Nat
deriving DecidableEq

/-- Arduino `highByte(w)`: `(uint8_t)(w >> 8)`. -/
def highByte (w : Nat) : Nat := (w / 256) % 256

/-- Arduino `lowByte(w)`: `(uint8_t)w`. -/
def lowByte (w : Nat) : Nat := w % 256

/-- `byte maxvel_lut[16]` from `rawhid_poll`. -/
def maxvel_lut : List Nat := [0, 1, 2, 3, 4, 5, 6, 7, 8, 9, 10, 15, 25, 50, 75, 100]

/-- The two sequential clamping `if`s on the encoder reading: result is the
clamped `maxvel` plus the values written back with `encoder_maxvel.write`. -/
def clampEnc (r : Int) : Int × List Int :=
  let p1 := if r < 0 then ((0 : Int), [(0 : Int)]) else (r, [])
  let p2 := if p1.1 > 15 then ((15 : Int), [(15 : Int)]) else (p1.1, [])
  (p2.1, p1.2 ++ p2.2)

/-- Clamping as the spec words it: `r < 0` clamps to 0, `r > 15` clamps
to 15, otherwise `r` is used unchanged.  (Spec-side definition, compared
against the code-side `clampEnc`.) -/
def specClamp (r : Int) : Int := if r < 0 then 0 else if r > 15 then 15 else r

/-- `setF b i v` is `b[i] = v` on the 64-byte packet buffer. -/
def setF (b : Fin 64 → Nat) (i : Nat) (v : Nat) : Fin 64 → Nat :=
  fun j => if (j : Nat) = i then v else b j

/-- The outbound packet built in the shared global `buffer`, starting from
the inbound packet's bytes: the loop `for (i = 0; i < 63; i++) buffer[i] = 0`,
the `0x42 0x42` marker, the maxvel bytes 2-3 and the packet-count bytes
62-63. -/
def outPacket (count : Nat) (inPkt : Fin 64 → Nat) (enc : Int) : Fin 64 → Nat :=
  let b0 := (List.range 63).foldl (fun b i => setF b i 0) inPkt
  let b1 := setF b0 0 0x42
  let b2 := setF b1 1 0x42
  let new_maxvel := maxvel_lut.getD (clampEnc enc).1.toNat 0
  let b3 := setF b2 2 (highByte new_maxvel)
  let b4 := setF b3 3 (lowByte new_maxvel)
  let b5 := setF b4 62 (highByte count)
  setF b5 63 (lowByte count)

/-- The static locals of `rawhid_poll` that persist across iterations
(`run_state` is reassigned before every use, so only `packetCount` and
`last_run_state` matter).  `last_run_state` starts as `(unsigned int)(-1)`. -/
structure HidState where
  packetCount : Nat
  last_run_state : Nat
deriving DecidableEq

/-- The boot values of `rawhid_poll`'s static locals. -/
def hidInit : HidState := ⟨0, 4294967295⟩

/-- `alert_off()` issues `set_indicator(ALERT_BEEPER, INDICATOR_OFF)`. -/
def alert_off : IndCmd := ⟨ALERT_BEEPER, INDICATOR_OFF, 0⟩

/-- Everything one `rawhid_poll` iteration does: `set_indicator` calls in
program order, `alert_t.after` registrations (delay, callback command),
`encoder_maxvel.write` calls, packets handed to `RawHID.send`, and the new
static state. -/
structure HidResult where
  cmds : List IndCmd
  alerts : List (Nat × IndCmd)
  encWrites : List Int
  sent : List (Fin 64 → Nat)
  state : HidState

/-- The `state-run` branch of `rawhid_poll` on `buffer[0]`: the beacon
green / start LED commands plus the new `run_state` value. -/
def runPairOf (b0 : Nat) : List IndCmd × Nat :=
  if b0 = 0x01 then
    ([⟨INDICATOR_BEACON_GREEN, INDICATOR_ON, 0⟩,
      ⟨INDICATOR_LED_START, INDICATOR_ON, 0⟩], 1)
  else if b0 = 0x02 then
    ([⟨INDICATOR_BEACON_GREEN, INDICATOR_BLINK, 500⟩,
      ⟨INDICATOR_LED_START, INDICATOR_BLINK, 500⟩], 2)
  else
    ([⟨INDICATOR_BEACON_GREEN, INDICATOR_OFF, 0⟩,
      ⟨INDICATOR_LED_START, INDICATOR_OFF, 0⟩], 0)

/-- The running-edge alert: commands issued now and `alert_t.after`
registrations, from `if (last_run_state != 1 && run_state == 1)`. -/
def alertPairOf (lastRun runState : Nat) : List IndCmd × List (Nat × IndCmd) :=
  if lastRun ≠ 1 ∧ runState = 1 then
    ([⟨ALERT_BEEPER, INDICATOR_ON, 0⟩], [(5000, alert_off)])
  else ([], [])

/-- The `state-alarm` branch of `rawhid_poll` on `buffer[1]`. -/
def alarmCmdsOf (b1 : Nat) : List IndCmd :=
  if b1 = 0x01 then [⟨INDICATOR_BEACON_RED, INDICATOR_ON, 0⟩]
  else if b1 = 0x02 then [⟨INDICATOR_BEACON_RED, INDICATOR_BLINK, 250⟩]
  else [⟨INDICATOR_BEACON_RED, INDICATOR_OFF, 0⟩]

/-- The `state-m1` branch of `rawhid_poll` on `buffer[5]`. -/
def m1CmdOf (b5 : Nat) : IndCmd :=
  if b5 = 0x01 then ⟨INDICATOR_LED_M1, INDICATOR_ON, 0⟩
  else ⟨INDICATOR_LED_M1, INDICATOR_OFF, 0⟩

/-- The `state-feed-hold` branch of `rawhid_poll` on `buffer[6]`. -/
def feedCmdOf (b6 : Nat) : IndCmd :=
  if b6 = 0x01 then ⟨INDICATOR_LED_FEED, INDICATOR_ON, 0⟩
  else ⟨INDICATOR_LED_FEED, INDICATOR_OFF, 0⟩

/-- The amber beacon command from the mapped maxvel value. -/
def amberCmdOf (new_maxvel : Nat) : IndCmd :=
  if new_maxvel = 0 then ⟨INDICATOR_BEACON_AMBER, INDICATOR_BLINK, 100⟩
  else if new_maxvel = 100 then ⟨INDICATOR_BEACON_AMBER, INDICATOR_OFF, 0⟩
  else ⟨INDICATOR_BEACON_AMBER, INDICATOR_ON, 0⟩

/-- `rawhid_poll()` as a pure function.  `n` is the `RawHID.recv` return
value (64 means a full packet in `inPkt`), `enc` the raw encoder reading,
`sendRet` the `RawHID.send` return value.  `packetCount` is a 32-bit
unsigned counter, hence the `% 2 ^ 32` on increment. -/
def rawhid_poll (st : HidState) (n : Int) (inPkt : Fin 64 → Nat) (enc : Int)
    (sendRet : Int) : HidResult :=
  if n = 64 then
    let runPair := runPairOf (inPkt 0)
    let run_state := runPair.2
    let alertPair := alertPairOf st.last_run_state run_state
    let cl := clampEnc enc
    let new_maxvel := maxvel_lut.getD cl.1.toNat 0
    let newCount :=
      if sendRet > 0 then (st.packetCount + 1) % 4294967296 else st.packetCount
    { cmds := runPair.1 ++ alertPair.1 ++ alarmCmdsOf (inPkt 1) ++
        [m1CmdOf (inPkt 5), feedCmdOf (inPkt 6), amberCmdOf new_maxvel]
      alerts := alertPair.2
      encWrites := cl.2
      sent := [outPacket st.packetCount inPkt enc]
      state := { packetCount := newCount, last_run_state := run_state } }
  else
    { cmds := [], alerts := [], encWrites := [], sent := [], state := st }

/-- A concrete inbound packet whose run-state byte is `0x01` and whose
other bytes are zero (used to instantiate proved theorems). -/
def pktRun : Fin 64 → Nat := fun j => if (j : Nat) = 0 then 1 else 0

/-- A concrete inbound packet with program-stop flag byte `buffer[5] = 2`
(nonzero but different from `0x01`) and all other bytes zero. -/
def pkt5is2 : Fin 64 → Nat := fun j => if (j : Nat) = 5 then 2 else 0

/-! ## Theorems -/

/-- C3: for every 10-byte payload and every 2-byte checksum, feeding the
decoder (in `WAIT_STX`, with arbitrary residual counter and buffer
contents) the frame `0x02, payload, checksum, 0x03` emits exactly
`0x02, payload, 0x03` — the payload verbatim, the checksum bytes not
forwarded — and leaves the decoder back in `WAIT_STX`. -/
theorem rfid_happy_frame
    (k u0 u1 u2 u3 u4 u5 u6 u7 u8 u9 v0 v1 : Nat)
    (a0 a1 a2 a3 a4 a5 a6 a7 a8 a9 c0 c1 : Nat) :
    rfid_run ⟨RFID_STATE_WAIT_STX, k, [u0, u1, u2, u3, u4, u5, u6, u7, u8, u9], [v0, v1]⟩
      [0x02, a0, a1, a2, a3, a4, a5, a6, a7, a8, a9, c0, c1, 0x03] =
      (⟨RFID_STATE_WAIT_STX, 0, [a0, a1, a2, a3, a4, a5, a6, a7, a8, a9], [c0, c1]⟩,
        [0x02, a0, a1, a2, a3, a4, a5, a6, a7, a8, a9, 0x03]) := by
  simp [rfid_run, rfid_poll, RFID_STATE_WAIT_STX, RFID_STATE_GET_BYTES,
    RFID_STATE_GET_CKSUM, RFID_STATE_WAIT_ETX]

/-- C4 (counterexample): the truncated frame consisting of the single byte
`0x02` is not a well-formed frame, yet after consuming it the decoder is
*not* back in `WAIT_STX` — it sits in `GET_BYTES` waiting for payload
bytes (it does emit nothing). -/
theorem rfid_truncated_counterexample :
    (rfid_run rfidInit [0x02]).2 = [] ∧
      (rfid_run rfidInit [0x02]).1.phase ≠ RFID_STATE_WAIT_STX := by decide

/-- C4 (amended): malformed input emits nothing, but only a *completed*
malformed frame returns the decoder to `WAIT_STX`:
(1) a full-length frame whose terminator is not ETX yields no output and
returns the decoder to `WAIT_STX`;
(2) a non-STX byte in `WAIT_STX` yields no output and leaves the decoder
in `WAIT_STX` unchanged;
(3) no single step ever emits output except an ETX arriving in `WAIT_ETX`
(so in particular a truncated frame emits nothing — though it leaves the
decoder mid-frame rather than back in `WAIT_STX`). -/
theorem rfid_malformed_silent :
    (∀ (k u0 u1 u2 u3 u4 u5 u6 u7 u8 u9 v0 v1 : Nat)
        (a0 a1 a2 a3 a4 a5 a6 a7 a8 a9 c0 c1 x : Nat), x ≠ 0x03 →
      rfid_run ⟨RFID_STATE_WAIT_STX, k, [u0, u1, u2, u3, u4, u5, u6, u7, u8, u9], [v0, v1]⟩
          [0x02, a0, a1, a2, a3, a4, a5, a6, a7, a8, a9, c0, c1, x] =
        (⟨RFID_STATE_WAIT_STX, 0, [a0, a1, a2, a3, a4, a5, a6, a7, a8, a9], [c0, c1]⟩, [])) ∧
    (∀ (s : RfidSt) (b : Nat), s.phase = RFID_STATE_WAIT_STX → b ≠ 0x02 →
      rfid_poll s b = (s, [])) ∧
    (∀ (s : RfidSt) (b : Nat), (rfid_poll s b).2 ≠ [] →
      s.phase = RFID_STATE_WAIT_ETX ∧ b = 0x03) := by
  refine ⟨?_, ?_, ?_⟩
  · intro k u0 u1 u2 u3 u4 u5 u6 u7 u8 u9 v0 v1
    intro a0 a1 a2 a3 a4 a5 a6 a7 a8 a9 c0 c1 x hx
    simp [rfid_run, rfid_poll, RFID_STATE_WAIT_STX, RFID_STATE_GET_BYTES,
      RFID_STATE_GET_CKSUM, RFID_STATE_WAIT_ETX, hx]
  · intro s b hs hb
    simp [rfid_poll, hs, RFID_STATE_WAIT_STX, hb]
  · intro s b h
    unfold rfid_poll at h
    rcases hs : s.phase with _ | _ | _ | _ | m <;> rw [hs] at h
    · simp only at h
      by_cases hb : b = 2 <;> simp [hb] at h
    · simp only at h
      by_cases hc : s.cnt - 1 = 0 <;> simp [hc] at h
    · simp only at h
      by_cases hc : s.cnt - 1 = 0 <;> simp [hc] at h
    · constructor
      · rfl
      · by_cases hb : b = 3
        · exact hb
        · simp [hb] at h
    · simp at h

/-- C4 amended, witnessed at a concrete malformed frame (terminator `0x04`
instead of ETX), a concrete stray byte in `WAIT_STX`, and a concrete
silent step. -/
theorem rfid_malformed_silent_witness :
    rfid_run ⟨RFID_STATE_WAIT_STX, 0, [0, 0, 0, 0, 0, 0, 0, 0, 0, 0], [0, 0]⟩
        [0x02, 1, 2, 3, 4, 5, 6, 7, 8, 9, 10, 11, 12, 0x04] =
      (⟨RFID_STATE_WAIT_STX, 0, [1, 2, 3, 4, 5, 6, 7, 8, 9, 10], [11, 12]⟩, []) ∧
    rfid_poll rfidInit 0x03 = (rfidInit, []) := by
  constructor
  · exact rfid_malformed_silent.1 0 0 0 0 0 0 0 0 0 0 0 0 0
      1 2 3 4 5 6 7 8 9 10 11 12 0x04 (by decide)
  · exact rfid_malformed_silent.2.1 rfidInit 0x03 rfl (by decide)

/-- C1 (counterexample): after a first `set_mode(PULSE)` on a fresh
indicator, the handle from that earlier PULSE is still recorded
(`event_id ≠ -1`), and a second `set_mode(PULSE)` registers *no* new pulse
timer — it produces no effects at all.  A stale PULSE handle does block a
new PULSE request. -/
theorem pulse_restack_counterexample :
    (set_indicator indInit 0 INDICATOR_PULSE 100).1.event_id ≠ -1 ∧
      (set_indicator (set_indicator indInit 0 INDICATOR_PULSE 100).1
          (set_indicator indInit 0 INDICATOR_PULSE 100).2.1
          INDICATOR_PULSE 100).2.2.filter isReg = [] ∧
      (set_indicator (set_indicator indInit 0 INDICATOR_PULSE 100).1
          (set_indicator indInit 0 INDICATOR_PULSE 100).2.1
          INDICATOR_PULSE 100).2.2 = [] := by decide

/-- C1 (amended): `set_mode(indicator, PULSE, period)` registers a new
one-shot pulse timer if and only if no timer handle is recorded on the
indicator (`event_id = -1`); when a handle is recorded — including a stale
handle from an earlier PULSE — the call is a no-op (PULSE does not
restack). -/
theorem pulse_only_when_no_handle (i : SIndicator) (nh p : Nat) :
    (i.event_id = -1 →
      (set_indicator i nh INDICATOR_PULSE p).2.2 =
        [TEffect.pulseImmediate (nh : Int) i.io_pin p]) ∧
    (i.event_id ≠ -1 → set_indicator i nh INDICATOR_PULSE p = (i, nh, [])) := by
  constructor
  · intro h
    simp [set_indicator, INDICATOR_PULSE, h]
  · intro h
    simp [set_indicator, INDICATOR_PULSE, h]

/-- C1 amended, witnessed on a fresh indicator (no handle recorded) and on
an indicator with a recorded handle. -/
theorem pulse_only_when_no_handle_witness :
    (set_indicator indInit 5 INDICATOR_PULSE 100).2.2 =
      [TEffect.pulseImmediate 5 0 100] ∧
    set_indicator ⟨7, 0, false, INDICATOR_PULSE⟩ 8 INDICATOR_PULSE 100 =
      (⟨7, 0, false, INDICATOR_PULSE⟩, 8, []) := by
  constructor
  · exact (pulse_only_when_no_handle indInit 5 100).1 rfl
  · exact (pulse_only_when_no_handle ⟨7, 0, false, INDICATOR_PULSE⟩ 8 100).2 (by decide)

/-- C8: `set_mode` is idempotent — calling `set_indicator` twice in a row
with the same (mode, period) on any indicator yields, across the two
calls combined, at most one timer registration and at most one pin-drive
side effect. -/
theorem set_indicator_idempotent (i : SIndicator) (nh m p : Nat) :
    (((set_indicator i nh m p).2.2 ++
        (set_indicator (set_indicator i nh m p).1
          (set_indicator i nh m p).2.1 m p).2.2).filter isReg).length ≤ 1 ∧
    (((set_indicator i nh m p).2.2 ++
        (set_indicator (set_indicator i nh m p).1
          (set_indicator i nh m p).2.1 m p).2.2).filter isWrite).length ≤ 1 := by
  rcases m with _ | _ | _ | _ | m
  · by_cases h : i.state = 0
    · simp [set_indicator, INDICATOR_OFF, h]
    · by_cases he : i.event_id = -1 <;>
        simp [set_indicator, INDICATOR_OFF, h, he, isReg, isWrite, List.filter]
  · by_cases h : i.state = 1
    · simp [set_indicator, INDICATOR_ON, h]
    · by_cases he : i.event_id = -1 <;>
        simp [set_indicator, INDICATOR_ON, h, he, isReg, isWrite, List.filter]
  · by_cases h : ¬i.state = 2 ∧ i.event_id = -1
    · have hofs : ¬((nh : Int) = -1) := by omega
      simp [set_indicator, INDICATOR_BLINK, h.1, h.2, isReg, isWrite, List.filter, hofs]
    · rcases not_and_or.mp h with h1 | h2
      · simp only [not_not] at h1
        by_cases he : i.event_id = -1 <;>
          simp [set_indicator, INDICATOR_BLINK, h1, he]
      · simp [set_indicator, INDICATOR_BLINK, h2]
  · by_cases h : i.event_id = -1
    · have hofs : ¬((nh : Int) = -1) := by omega
      simp [set_indicator, INDICATOR_PULSE, h, isReg, isWrite, List.filter, hofs]
    · simp [set_indicator, INDICATOR_PULSE, h]
  · simp [set_indicator]

/-- The handle-consistency invariant of one indicator together with the
timer service: at most one live handle, any live handle is the recorded
one, the handle field is `-1` whenever the mode is OFF or ON, and no
handle is live when none is recorded. -/
def Inv (s : IndSys) : Prop :=
  s.live.length ≤ 1 ∧
  (∀ h ∈ s.live, h = s.ind.event_id) ∧
  ((s.ind.state = INDICATOR_OFF ∨ s.ind.state = INDICATOR_ON) →
    s.ind.event_id = -1) ∧
  (s.ind.event_id = -1 → s.live = [])

theorem inv_sysInit (pin : Nat) (al : Bool) : Inv (sysInit pin al) := by
  refine ⟨by simp [sysInit], by simp [sysInit], fun _ => rfl, fun _ => rfl⟩

theorem inv_sysSet (s : IndSys) (m p : Nat) (hs : Inv s) : Inv (sysSet s m p) := by
  obtain ⟨h1, h2, h3, h4⟩ := hs
  have hlive : s.live = [] ∨ s.live = [s.ind.event_id] := by
    rcases hl : s.live with _ | ⟨a, _ | ⟨b, l⟩⟩
    · exact Or.inl rfl
    · have ha : a = s.ind.event_id := h2 a (by rw [hl]; exact List.mem_cons_self a [])
      exact Or.inr (by rw [ha])
    · rw [hl] at h1; simp at h1
  rcases m with _ | _ | _ | _ | m
  · by_cases hst : s.ind.state = 0
    · simpa [sysSet, set_indicator, INDICATOR_OFF, hst, runT] using ⟨h1, h2, h3, h4⟩
    · by_cases he : s.ind.event_id = -1
      · have : s.live = [] := h4 he
        simp [sysSet, set_indicator, INDICATOR_OFF, hst, he, runT, applyT, this, Inv]
      · rcases hlive with hl | hl <;>
          simp [sysSet, set_indicator, INDICATOR_OFF, hst, he, runT, applyT, hl, Inv,
            List.erase_cons]
  · by_cases hst : s.ind.state = 1
    · simpa [sysSet, set_indicator, INDICATOR_ON, hst, runT] using ⟨h1, h2, h3, h4⟩
    · by_cases he : s.ind.event_id = -1
      · have : s.live = [] := h4 he
        simp [sysSet, set_indicator, INDICATOR_ON, hst, he, runT, applyT, this, Inv]
      · rcases hlive with hl | hl <;>
          simp [sysSet, set_indicator, INDICATOR_ON, hst, he, runT, applyT, hl, Inv,
            List.erase_cons]
  · by_cases hc : ¬s.ind.state = 2 ∧ s.ind.event_id = -1
    · have : s.live = [] := h4 hc.2
      refine ⟨?_, ?_, ?_, ?_⟩ <;>
        simp [sysSet, set_indicator, INDICATOR_BLINK, INDICATOR_OFF, INDICATOR_ON,
          hc.1, hc.2, runT, applyT, this]
    · rcases not_and_or.mp hc with hc1 | hc2
      · simp only [not_not] at hc1
        by_cases he : s.ind.event_id = -1 <;>
          simpa [sysSet, set_indicator, INDICATOR_BLINK, hc1, he, runT]
            using ⟨h1, h2, h3, h4⟩
      · simpa [sysSet, set_indicator, INDICATOR_BLINK, hc2, runT]
          using ⟨h1, h2, h3, h4⟩
  · by_cases he : s.ind.event_id = -1
    · have : s.live = [] := h4 he
      refine ⟨?_, ?_, ?_, ?_⟩ <;>
        simp [sysSet, set_indicator, INDICATOR_PULSE, INDICATOR_OFF, INDICATOR_ON,
          he, runT, applyT, this]
    · simpa [sysSet, set_indicator, INDICATOR_PULSE, he, runT]
        using ⟨h1, h2, h3, h4⟩
  · simpa [sysSet, set_indicator, runT] using ⟨h1, h2, h3, h4⟩

theorem inv_sysRun (calls : List (Nat × Nat)) (s : IndSys) (hs : Inv s) :
    Inv (sysRun s calls) := by
  induction calls generalizing s with
  | nil => exact hs
  | cons c rest ih => exact ih (sysSet s c.1 c.2) (inv_sysSet s c.1 c.2 hs)

/-- C9: for every indicator (any pin, any polarity), after initialization
and after every sequence of `set_mode` calls, at most one timer handle is
outstanding in the timer service, and no handle is recorded
(`event_id = -1`) whenever the indicator's mode is OFF or ON. -/
theorem indicator_handle_invariant (pin : Nat) (al : Bool)
    (calls : List (Nat × Nat)) :
    (sysRun (sysInit pin al) calls).live.length ≤ 1 ∧
    (((sysRun (sysInit pin al) calls).ind.state = INDICATOR_OFF ∨
        (sysRun (sysInit pin al) calls).ind.state = INDICATOR_ON) →
      (sysRun (sysInit pin al) calls).ind.event_id = -1) := by
  obtain ⟨h1, _, h3, _⟩ := inv_sysRun calls (sysInit pin al) (inv_sysInit pin al)
  exact ⟨h1, h3⟩

theorem setF_at (b : Fin 64 → Nat) (i : Nat) (v : Nat) (j : Fin 64)
    (h : (j : Nat) = i) : setF b i v j = v := by
  simp [setF, h]

theorem setF_away (b : Fin 64 → Nat) (i : Nat) (v : Nat) (j : Fin 64)
    (h : ¬(j : Nat) = i) : setF b i v j = b j := by
  simp [setF, h]

/-- The zeroing loop `for (i = 0; i < 63; i++) buffer[i] = 0` clears every
index below the loop bound. -/
theorem zeroLoop_at (n : Nat) (f : Fin 64 → Nat) (j : Fin 64)
    (h : (j : Nat) < n) :
    ((List.range n).foldl (fun b i => setF b i 0) f) j = 0 := by
  induction n generalizing f with
  | zero => omega
  | succ n ih =>
    rw [List.range_succ, List.foldl_append]
    simp only [List.foldl_cons, List.foldl_nil]
    by_cases hj : (j : Nat) = n
    · rw [setF_at _ _ _ _ hj]
    · rw [setF_away _ _ _ _ hj]
      exact ih f (by omega)

/-- C10: the outbound packet depends only on the send counter and the
encoder reading — for any two inbound packets, the packets built in the
shared buffer are identical (every one of the 64 bytes, including byte 63,
is overwritten before sending, so no inbound byte leaks into the
response). -/
theorem outPacket_independent_of_input (count : Nat) (enc : Int)
    (in1 in2 : Fin 64 → Nat) :
    outPacket count in1 enc = outPacket count in2 enc := by
  funext j
  show setF _ 63 _ j = setF _ 63 _ j
  by_cases h63 : (j : Nat) = 63
  · rw [setF_at _ _ _ _ h63, setF_at _ _ _ _ h63]
  · rw [setF_away _ _ _ _ h63, setF_away _ _ _ _ h63]
    by_cases h62 : (j : Nat) = 62
    · rw [setF_at _ _ _ _ h62, setF_at _ _ _ _ h62]
    · rw [setF_away _ _ _ _ h62, setF_away _ _ _ _ h62]
      by_cases h3 : (j : Nat) = 3
      · rw [setF_at _ _ _ _ h3, setF_at _ _ _ _ h3]
      · rw [setF_away _ _ _ _ h3, setF_away _ _ _ _ h3]
        by_cases h2 : (j : Nat) = 2
        · rw [setF_at _ _ _ _ h2, setF_at _ _ _ _ h2]
        · rw [setF_away _ _ _ _ h2, setF_away _ _ _ _ h2]
          by_cases h1 : (j : Nat) = 1
          · rw [setF_at _ _ _ _ h1, setF_at _ _ _ _ h1]
          · rw [setF_away _ _ _ _ h1, setF_away _ _ _ _ h1]
            by_cases h0 : (j : Nat) = 0
            · rw [setF_at _ _ _ _ h0, setF_at _ _ _ _ h0]
            · rw [setF_away _ _ _ _ h0, setF_away _ _ _ _ h0]
              have hj : (j : Nat) < 63 := by omega
              rw [zeroLoop_at _ _ _ hj, zeroLoop_at _ _ _ hj]

/-- C7: whenever a complete 64-byte inbound packet is processed, exactly
one outbound send is attempted, its bytes 62-63 carry the current send
counter big-endian (high byte then low byte, i.e. the counter mod 2^16),
and the counter is incremented exactly when the transport reports more
than zero bytes written; with no complete inbound packet no send is
attempted. -/
theorem send_counter_behaviour (st : HidState) (pkt : Fin 64 → Nat)
    (enc sendRet : Int) :
    (rawhid_poll st 64 pkt enc sendRet).sent =
      [outPacket st.packetCount pkt enc] ∧
    outPacket st.packetCount pkt enc 62 = highByte st.packetCount ∧
    outPacket st.packetCount pkt enc 63 = lowByte st.packetCount ∧
    outPacket st.packetCount pkt enc 62 * 256 + outPacket st.packetCount pkt enc 63 =
      st.packetCount % 65536 ∧
    (rawhid_poll st 64 pkt enc sendRet).state.packetCount =
      (if sendRet > 0 then (st.packetCount + 1) % 4294967296 else st.packetCount) ∧
    (∀ m : Int, m ≠ 64 → (rawhid_poll st m pkt enc sendRet).sent = []) := by
  refine ⟨?_, ?_, ?_, ?_, ?_, ?_⟩
  · simp [rawhid_poll]
  · rfl
  · rfl
  · show highByte st.packetCount * 256 + lowByte st.packetCount = _
    unfold highByte lowByte
    omega
  · simp [rawhid_poll]
  · intro m hm
    simp [rawhid_poll, hm]

/-- C7, witnessed at a successful and a failed send from the boot state. -/
theorem send_counter_behaviour_witness :
    (rawhid_poll hidInit 64 pktRun 0 1).state.packetCount =
      (if (1 : Int) > 0 then (hidInit.packetCount + 1) % 4294967296
        else hidInit.packetCount) ∧
    (rawhid_poll hidInit 64 pktRun 0 0).state.packetCount =
      (if (0 : Int) > 0 then (hidInit.packetCount + 1) % 4294967296
        else hidInit.packetCount) ∧
    (rawhid_poll hidInit 0 pktRun 0 1).sent = [] := by
  refine ⟨(send_counter_behaviour hidInit pktRun 0 1).2.2.2.2.1,
    (send_counter_behaviour hidInit pktRun 0 0).2.2.2.2.1,
    (send_counter_behaviour hidInit pktRun 0 1).2.2.2.2.2 0 (by decide)⟩

/-- C2: processing a full packet with run-state byte `0x01` while the
recorded run state is not RUNNING issues the beeper-ON command and
schedules exactly one 5000 ms `alert_off` callback; processing such a
packet while already RUNNING schedules none. -/
theorem alert_on_running_edge (st : HidState) (pkt : Fin 64 → Nat)
    (enc sendRet : Int) (h0 : pkt 0 = 0x01) :
    (st.last_run_state ≠ 1 →
      (rawhid_poll st 64 pkt enc sendRet).alerts = [(5000, alert_off)] ∧
      (⟨ALERT_BEEPER, INDICATOR_ON, 0⟩ : IndCmd) ∈
        (rawhid_poll st 64 pkt enc sendRet).cmds) ∧
    (st.last_run_state = 1 →
      (rawhid_poll st 64 pkt enc sendRet).alerts = []) := by
  constructor
  · intro hlast
    constructor
    · simp [rawhid_poll, runPairOf, alertPairOf, h0, hlast]
    · simp [rawhid_poll, runPairOf, alertPairOf, h0, hlast]
  · intro hlast
    simp [rawhid_poll, runPairOf, alertPairOf, h0, hlast]

/-- C2, witnessed at the boot state (`last_run_state = (unsigned)(-1)`,
not RUNNING) and at a state already RUNNING. -/
theorem alert_on_running_edge_witness :
    ((rawhid_poll hidInit 64 pktRun 0 1).alerts = [(5000, alert_off)] ∧
      (⟨ALERT_BEEPER, INDICATOR_ON, 0⟩ : IndCmd) ∈
        (rawhid_poll hidInit 64 pktRun 0 1).cmds) ∧
    (rawhid_poll ⟨0, 1⟩ 64 pktRun 0 1).alerts = [] := by
  refine ⟨(alert_on_running_edge hidInit pktRun 0 1 rfl).1 (by decide),
    (alert_on_running_edge ⟨0, 1⟩ pktRun 0 1 rfl).2 rfl⟩

/-- C6 (counterexample): on a packet whose program-stop flag byte
(`buffer[5]`) is 2 — nonzero — the firmware issues `M1 LED OFF`, not ON:
the code tests `buffer[5] == 0x01`, not "nonzero". -/
theorem m1_led_nonzero_counterexample :
    pkt5is2 5 ≠ 0 ∧
    (⟨INDICATOR_LED_M1, INDICATOR_OFF, 0⟩ : IndCmd) ∈
      (rawhid_poll hidInit 64 pkt5is2 0 1).cmds ∧
    (⟨INDICATOR_LED_M1, INDICATOR_ON, 0⟩ : IndCmd) ∉
      (rawhid_poll hidInit 64 pkt5is2 0 1).cmds := by
  refine ⟨by decide, by decide, by decide⟩

theorem filter_runPairOf (b k : Nat) (h1 : ¬(1 = k)) (h4 : ¬(4 = k)) :
    List.filter (fun c => c.ind = k) (runPairOf b).1 = [] := by
  unfold runPairOf
  repeat' split
  all_goals
    simp [INDICATOR_BEACON_GREEN, INDICATOR_LED_START, List.filter, h1, h4]

theorem filter_alertPairOf (l r k : Nat) (h0 : ¬(0 = k)) :
    List.filter (fun c => c.ind = k) (alertPairOf l r).1 = [] := by
  unfold alertPairOf
  split
  all_goals simp [ALERT_BEEPER, List.filter, h0]

theorem filter_alarmCmdsOf (b k : Nat) (h3 : ¬(3 = k)) :
    List.filter (fun c => c.ind = k) (alarmCmdsOf b) = [] := by
  unfold alarmCmdsOf
  repeat' split
  all_goals simp [INDICATOR_BEACON_RED, List.filter, h3]

/-- C6 (amended): for every processed inbound packet, exactly one M1-LED
command is issued and it is ON exactly when the program-stop flag byte
(`buffer[5]`) equals `0x01` (OFF for every other value, including other
nonzero values); likewise the feed LED follows `buffer[6] == 0x01`. -/
theorem led_flag_commands (st : HidState) (pkt : Fin 64 → Nat)
    (enc sendRet : Int) :
    (rawhid_poll st 64 pkt enc sendRet).cmds.filter
        (fun c => c.ind = INDICATOR_LED_M1) =
      [if pkt 5 = 0x01 then (⟨INDICATOR_LED_M1, INDICATOR_ON, 0⟩ : IndCmd)
        else ⟨INDICATOR_LED_M1, INDICATOR_OFF, 0⟩] ∧
    (rawhid_poll st 64 pkt enc sendRet).cmds.filter
        (fun c => c.ind = INDICATOR_LED_FEED) =
      [if pkt 6 = 0x01 then (⟨INDICATOR_LED_FEED, INDICATOR_ON, 0⟩ : IndCmd)
        else ⟨INDICATOR_LED_FEED, INDICATOR_OFF, 0⟩] := by
  have hcmds : (rawhid_poll st 64 pkt enc sendRet).cmds =
      (runPairOf (pkt 0)).1 ++
        (alertPairOf st.last_run_state (runPairOf (pkt 0)).2).1 ++
        alarmCmdsOf (pkt 1) ++
        [m1CmdOf (pkt 5), feedCmdOf (pkt 6),
          amberCmdOf (maxvel_lut.getD (clampEnc enc).1.toNat 0)] := by
    simp [rawhid_poll]
  constructor
  · rw [hcmds]
    simp only [List.filter_append,
      filter_runPairOf (pkt 0) INDICATOR_LED_M1 (by decide) (by decide),
      filter_alertPairOf st.last_run_state (runPairOf (pkt 0)).2
        INDICATOR_LED_M1 (by decide),
      filter_alarmCmdsOf (pkt 1) INDICATOR_LED_M1 (by decide),
      List.nil_append]
    unfold m1CmdOf feedCmdOf amberCmdOf
    repeat' split
    all_goals
      simp [INDICATOR_LED_M1, INDICATOR_LED_FEED, INDICATOR_BEACON_AMBER,
        INDICATOR_ON, INDICATOR_OFF, INDICATOR_BLINK, List.filter]
  · rw [hcmds]
    simp only [List.filter_append,
      filter_runPairOf (pkt 0) INDICATOR_LED_FEED (by decide) (by decide),
      filter_alertPairOf st.last_run_state (runPairOf (pkt 0)).2
        INDICATOR_LED_FEED (by decide),
      filter_alarmCmdsOf (pkt 1) INDICATOR_LED_FEED (by decide),
      List.nil_append]
    unfold m1CmdOf feedCmdOf amberCmdOf
    repeat' split
    all_goals
      simp [INDICATOR_LED_M1, INDICATOR_LED_FEED, INDICATOR_BEACON_AMBER,
        INDICATOR_ON, INDICATOR_OFF, INDICATOR_BLINK, List.filter]

theorem clampEnc_fst (r : Int) : (clampEnc r).1 = specClamp r := by
  unfold clampEnc specClamp
  by_cases h : r < 0
  · simp [h]
  · by_cases h15 : r > 15 <;> simp [h, h15]

theorem clampEnc_snd (r : Int) :
    (clampEnc r).2 =
      (if r < 0 then [(0 : Int)] else if r > 15 then [(15 : Int)] else []) := by
  unfold clampEnc
  by_cases h : r < 0
  · simp [h]
  · by_cases h15 : r > 15 <;> simp [h, h15]

theorem lut_lt (i : Nat) : maxvel_lut.getD i 0 < 256 := by
  unfold maxvel_lut
  rcases i with _ | _ | _ | _ | _ | _ | _ | _ | _ | _ | _ | _ | _ | _ | _ | _ | i <;>
    simp [List.getD]

/-- C5: the outbound packet's bytes 2-3 (big-endian 16-bit) equal the
lookup table `{0,1,2,3,4,5,6,7,8,9,10,15,25,50,75,100}` applied to the
encoder reading clamped into `[0, 15]` (negative readings clamp to 0,
readings above 15 clamp to 15); and exactly when the reading is out of
range, the clamped bound is written back to the encoder counter. -/
theorem maxvel_mapping (st : HidState) (pkt : Fin 64 → Nat)
    (enc sendRet : Int) :
    (∀ out ∈ (rawhid_poll st 64 pkt enc sendRet).sent,
      out 2 * 256 + out 3 = maxvel_lut.getD (specClamp enc).toNat 0) ∧
    (rawhid_poll st 64 pkt enc sendRet).encWrites =
      (if enc < 0 then [(0 : Int)] else if enc > 15 then [(15 : Int)] else []) := by
  constructor
  · intro out hout
    have hsent : (rawhid_poll st 64 pkt enc sendRet).sent =
        [outPacket st.packetCount pkt enc] := by simp [rawhid_poll]
    rw [hsent] at hout
    rcases List.mem_singleton.mp hout with rfl
    have h2 : outPacket st.packetCount pkt enc 2 =
        highByte (maxvel_lut.getD (clampEnc enc).1.toNat 0) := rfl
    have h3 : outPacket st.packetCount pkt enc 3 =
        lowByte (maxvel_lut.getD (clampEnc enc).1.toNat 0) := rfl
    rw [h2, h3, clampEnc_fst]
    have hb := lut_lt (specClamp enc).toNat
    unfold highByte lowByte
    omega
  · have henc : (rawhid_poll st 64 pkt enc sendRet).encWrites =
        (clampEnc enc).2 := by simp [rawhid_poll]
    rw [henc, clampEnc_snd]

/-- C5, witnessed at in-range reading 11 (→ 15 %), below-range reading -3
(→ 0 %, write-back 0) and above-range reading 99 (→ 100 %, write-back
15). -/
theorem maxvel_mapping_witness :
    (outPacket 0 pktRun 11) 2 * 256 + (outPacket 0 pktRun 11) 3 = 15 ∧
    (rawhid_poll hidInit 64 pktRun (-3) 1).encWrites = [(0 : Int)] ∧
    (rawhid_poll hidInit 64 pktRun 99 1).encWrites = [(15 : Int)] := by
  refine ⟨?_, ?_, ?_⟩
  · have h := (maxvel_mapping hidInit pktRun 11 1).1
      (outPacket 0 pktRun 11) (by simp [rawhid_poll, hidInit])
    simpa [specClamp, maxvel_lut] using h
  · have h := (maxvel_mapping hidInit pktRun (-3) 1).2
    simpa using h
  · have h := (maxvel_mapping hidInit pktRun 99 1).2
    simpa using h

end Pendant
